import Mathlib

/-!
# Value representation of `src/include/dst/dsttypes.h`

A shallow embedding of the two `DstValue` representations of the header:

* the packed (`DST_NANBOX`) encoding, where a cell is one 64-bit word
  (modelled as a `Nat` below `2 ^ 64`) and a C `double` is identified with
  its IEEE-754 binary64 bit pattern;
* the tagged-union encoding, where a cell is a payload word plus a
  `DstType` discriminant.

Every macro of the header is translated operator by operator; unsigned
64-bit arithmetic that can wrap is reduced modulo `2 ^ 64`.
-/

namespace Dst

/-! ## The `DstType` enumeration (lines 61-78) -/

/-- Basic types for all Dst values, in the order of the C enumeration. -/
inductive DstType
  | DST_NIL
  | DST_FALSE
  | DST_TRUE
  | DST_FIBER
  | DST_INTEGER
  | DST_REAL
  | DST_STRING
  | DST_SYMBOL
  | DST_ARRAY
  | DST_TUPLE
  | DST_TABLE
  | DST_STRUCT
  | DST_BUFFER
  | DST_FUNCTION
  | DST_CFUNCTION
  | DST_USERDATA
  deriving DecidableEq

/-- The integer value C gives each enumerator (0 for the first, then +1). -/
def DstType.toNat : DstType → Nat
  | .DST_NIL => 0
  | .DST_FALSE => 1
  | .DST_TRUE => 2
  | .DST_FIBER => 3
  | .DST_INTEGER => 4
  | .DST_REAL => 5
  | .DST_STRING => 6
  | .DST_SYMBOL => 7
  | .DST_ARRAY => 8
  | .DST_TUPLE => 9
  | .DST_TABLE => 10
  | .DST_STRUCT => 11
  | .DST_BUFFER => 12
  | .DST_FUNCTION => 13
  | .DST_CFUNCTION => 14
  | .DST_USERDATA => 15

/-! ## C conversions and `<math.h>` used by the macros -/

/-- The conversion `(uint32_t)(i)` of a signed integer: reduction modulo `2 ^ 32`. -/
def cast_uint32_t (i : Int) : Nat := (i % 2 ^ 32).toNat

/-- The conversion `(int32_t)(u)` of an unsigned value: the low 32 bits read as
two's complement. -/
def cast_int32_t (u : Nat) : Int :=
  if u % 2 ^ 32 < 2 ^ 31 then ((u % 2 ^ 32 : Nat) : Int) else ((u % 2 ^ 32 : Nat) : Int) - 2 ^ 32

/-- The classification `isnan` of `<math.h>` on the bit pattern of a binary64
value: the 11-bit exponent field is all ones and the 52-bit mantissa is not zero. -/
def isnan (x : Nat) : Bool :=
  (((x >>> 52) &&& 0x7FF) == 0x7FF) && ((x &&& 0xFFFFFFFFFFFFF) != 0)

/-! ## The packed encoding (`#ifdef DST_NANBOX`, lines 100-227) -/

namespace Nanbox

/-- The mask `DST_NANBOX_TYPEBITS`. -/
def DST_NANBOX_TYPEBITS : Nat := 0x0007000000000000

/-- The mask `DST_NANBOX_TAGBITS`. -/
def DST_NANBOX_TAGBITS : Nat := 0xFFFF000000000000

/-- The mask `DST_NANBOX_PAYLOADBITS`. -/
def DST_NANBOX_PAYLOADBITS : Nat := 0x0000FFFFFFFFFFFF

/-- The macro `dst_u64(x)`: the word of the cell. -/
def dst_u64 (x : Nat) : Nat := x

/-- The macro `dst_nanbox_lowtag(type)`:
`((((uint64_t)(type) & 0x8) << 12) | 0x7FF8 | (type))`. -/
def dst_nanbox_lowtag (type : Nat) : Nat :=
  (((type &&& 0x8) <<< 12) % 2 ^ 64) ||| 0x7FF8 ||| type

/-- The macro `dst_nanbox_tag(type)`: `(dst_nanbox_lowtag(type) << 48)` on `uint64_t`. -/
def dst_nanbox_tag (type : Nat) : Nat :=
  (dst_nanbox_lowtag type <<< 48) % 2 ^ 64

/-- The macro `dst_nanbox_checkauxtype(x, type)`. -/
def dst_nanbox_checkauxtype (x type : Nat) : Bool :=
  (x &&& DST_NANBOX_TAGBITS) == dst_nanbox_tag type

/-- The macro `dst_nanbox_isreal(x)`. -/
def dst_nanbox_isreal (x : Nat) : Bool :=
  !(isnan x) || dst_nanbox_checkauxtype x DstType.DST_REAL.toNat

/-- The macro `dst_type(x)` of the packed encoding; the result is the integer
value of the C expression. -/
def dst_type (x : Nat) : Nat :=
  if isnan x then
    ((x &&& DST_NANBOX_TYPEBITS) >>> 48) ||| ((x >>> 60) &&& 0x8)
  else
    DstType.DST_REAL.toNat

/-- The macro `dst_checktype(x, t)` of the packed encoding. -/
def dst_checktype (x t : Nat) : Bool :=
  if t = DstType.DST_REAL.toNat then dst_nanbox_isreal x
  else dst_nanbox_checkauxtype x t

/-- The macro `dst_truthy(x)` of the packed encoding. -/
def dst_truthy (x : Nat) : Bool :=
  !(dst_checktype x DstType.DST_NIL.toNat || dst_checktype x DstType.DST_FALSE.toNat)

/-- Modelled from the spec: `dst_nanbox_from_bits` is only declared in the header
(line 166); its body is not in the source. The cell it returns holds the given
64 bits unchanged. -/
def dst_nanbox_from_bits (bits : Nat) : Nat := bits

/-- Modelled from the spec: `dst_nanbox_from_double` is only declared in the header
(line 165); its body is not in the source. Following the spec, a not-a-number
payload is canonicalized to one reserved bit pattern before storage, and every
other double is stored as it stands; the reserved pattern is the one the macro
`dst_nanbox_isreal` tests for, `dst_nanbox_tag(DST_REAL)`. -/
def dst_nanbox_from_double (d : Nat) : Nat :=
  if isnan d then dst_nanbox_tag DstType.DST_REAL.toNat else d

/-- The macro `dst_wrap_real(r)`. -/
def dst_wrap_real (r : Nat) : Nat := dst_nanbox_from_double r

/-- The macro `dst_nanbox_from_payload(t, p)`. -/
def dst_nanbox_from_payload (t p : Nat) : Nat :=
  dst_nanbox_from_bits (dst_nanbox_tag t ||| p)

/-- The macro `dst_wrap_nil()`. -/
def dst_wrap_nil : Nat := dst_nanbox_from_payload DstType.DST_NIL.toNat 1

/-- The macro `dst_wrap_true()`. -/
def dst_wrap_true : Nat := dst_nanbox_from_payload DstType.DST_TRUE.toNat 1

/-- The macro `dst_wrap_false()`. -/
def dst_wrap_false : Nat := dst_nanbox_from_payload DstType.DST_FALSE.toNat 1

/-- The macro `dst_wrap_boolean(b)`; `b` is a C `int`, true when not zero. -/
def dst_wrap_boolean (b : Int) : Nat :=
  dst_nanbox_from_payload (if b ≠ 0 then DstType.DST_TRUE.toNat else DstType.DST_FALSE.toNat) 1

/-- The macro `dst_wrap_integer(i)`. -/
def dst_wrap_integer (i : Int) : Nat :=
  dst_nanbox_from_payload DstType.DST_INTEGER.toNat (cast_uint32_t i)

/-- The macro `dst_unwrap_boolean(x)` of the packed encoding. -/
def dst_unwrap_boolean (x : Nat) : Bool :=
  (x >>> 48) == dst_nanbox_lowtag DstType.DST_TRUE.toNat

/-- The macro `dst_unwrap_integer(x)` of the packed encoding. -/
def dst_unwrap_integer (x : Nat) : Int :=
  cast_int32_t (x &&& 0xFFFFFFFF)

/-- The macro `dst_unwrap_real(x)`: the `real` member of the union, the same
64 bits read as a double. -/
def dst_unwrap_real (x : Nat) : Nat := x

end Nanbox

/-! ## The tagged-union encoding (`#else`, lines 228-286) -/

namespace Tagged

/-- The C `struct DstValue`: the union `as` (kept as its 64-bit word `u64`) and
the discriminant `type`. -/
structure DstValue where
  as_u64 : Nat
  type : DstType
  deriving DecidableEq

/-- The member `as.real`: the 64 bits of the union read as a double. -/
def DstValue.as_real (x : DstValue) : Nat := x.as_u64

/-- The member `as.integer`: the low 32 bits of the union read as an `int32_t`. -/
def DstValue.as_integer (x : DstValue) : Int := cast_int32_t (x.as_u64 % 2 ^ 32)

/-- The macro `dst_u64(x)`. -/
def dst_u64 (x : DstValue) : Nat := x.as_u64

/-- The macro `dst_type(x)` of the tagged union. -/
def dst_type (x : DstValue) : DstType := x.type

/-- The macro `dst_checktype(x, t)` of the tagged union. -/
def dst_checktype (x : DstValue) (t : DstType) : Bool := x.type == t

/-- The macro `dst_truthy(x)` of the tagged union. -/
def dst_truthy (x : DstValue) : Bool :=
  x.type != DstType.DST_NIL && x.type != DstType.DST_FALSE

/-- The macro `dst_unwrap_boolean(x)` of the tagged union. -/
def dst_unwrap_boolean (x : DstValue) : Bool := x.type == DstType.DST_TRUE

/-- The macro `dst_unwrap_integer(x)` of the tagged union. -/
def dst_unwrap_integer (x : DstValue) : Int := x.as_integer

/-- The macro `dst_unwrap_real(x)` of the tagged union. -/
def dst_unwrap_real (x : DstValue) : Nat := x.as_real

end Tagged

/-! ## Stack frames (lines 311-319) -/

/-- The macro `DST_FRAME_SIZE`,
`((sizeof(DstStackFrame) + sizeof(DstValue) - 1) / sizeof(DstValue))`, in `size_t`
arithmetic of 64 bits; the two sizes depend on the platform and are parameters. -/
def DST_FRAME_SIZE (sizeof_DstStackFrame sizeof_DstValue : Nat) : Nat :=
  ((sizeof_DstStackFrame + sizeof_DstValue - 1) % 2 ^ 64) / sizeof_DstValue

/-! ## Arithmetic reading of the bit operations -/

/-- Masking with a shifted mask is masking the shifted word. -/
theorem land_shl_mask (x m k : Nat) : x &&& (m <<< k) = ((x >>> k) &&& m) <<< k := by
  apply Nat.eq_of_testBit_eq
  intro i
  simp only [Nat.testBit_and, Nat.testBit_shiftLeft, Nat.testBit_shiftRight]
  by_cases h : k ≤ i
  · have hk : k + (i - k) = i := by omega
    simp [h, hk]
  · simp [h]

/-- Masking with `n` ones starting at bit `k` extracts the field as a quotient
and a remainder. -/
theorem land_field (x k n : Nat) :
    x &&& ((2 ^ n - 1) <<< k) = ((x / 2 ^ k) % 2 ^ n) * 2 ^ k := by
  rw [land_shl_mask, Nat.and_pow_two_sub_one_eq_mod, Nat.shiftRight_eq_div_pow,
    Nat.shiftLeft_eq]

/-- A bitwise or of a multiple of `2 ^ k` with a value below `2 ^ k` is their sum. -/
theorem lor_add (a b k : Nat) (hb : b < 2 ^ k) : (a * 2 ^ k) ||| b = a * 2 ^ k + b := by
  rw [Nat.mul_comm, ← Nat.mul_add_lt_is_or hb]

/-- Every enumerator is below 16. -/
theorem DstType.toNat_lt (t : DstType) : t.toNat < 16 := by
  cases t <;> decide

/-- Distinct enumerators have distinct integer values. -/
theorem DstType.toNat_inj {t u : DstType} (h : t.toNat = u.toNat) : t = u := by
  cases t <;> cases u <;> first | rfl | (exact absurd h (by decide))

/-- The arithmetic reading of `isnan`. -/
theorem isnan_iff (x : Nat) :
    isnan x = true ↔ x / 2 ^ 52 % 2 ^ 11 = 2047 ∧ x % 2 ^ 52 ≠ 0 := by
  have h1 : (0x7FF : Nat) = 2 ^ 11 - 1 := by decide
  have h2 : (0xFFFFFFFFFFFFF : Nat) = 2 ^ 52 - 1 := by decide
  unfold isnan
  rw [h1, h2, Nat.and_pow_two_sub_one_eq_mod, Nat.and_pow_two_sub_one_eq_mod,
    Nat.shiftRight_eq_div_pow]
  simp

namespace Nanbox

/-- The arithmetic reading of the tag mask. -/
theorem and_tagbits (x : Nat) :
    x &&& DST_NANBOX_TAGBITS = x / 2 ^ 48 % 2 ^ 16 * 2 ^ 48 := by
  have h : DST_NANBOX_TAGBITS = (2 ^ 16 - 1) <<< 48 := by decide
  rw [h, land_field]

/-- The arithmetic reading of the type expression of `dst_type`. -/
theorem type_bits_eq (x : Nat) :
    ((x &&& DST_NANBOX_TYPEBITS) >>> 48) ||| ((x >>> 60) &&& 0x8)
      = x / 2 ^ 48 % 8 + x / 2 ^ 63 % 2 * 8 := by
  have e1 : (x &&& DST_NANBOX_TYPEBITS) >>> 48 = x / 2 ^ 48 % 2 ^ 3 := by
    have h1 : DST_NANBOX_TYPEBITS = (2 ^ 3 - 1) <<< 48 := by decide
    rw [h1, land_field, Nat.shiftRight_eq_div_pow,
      Nat.mul_div_cancel _ (by decide : 0 < 2 ^ 48)]
  have e2 : (x >>> 60) &&& 0x8 = x / 2 ^ 60 / 2 ^ 3 % 2 ^ 1 * 2 ^ 3 := by
    have h2 : (0x8 : Nat) = (2 ^ 1 - 1) <<< 3 := by decide
    rw [h2, land_field, Nat.shiftRight_eq_div_pow]
  rw [e1, e2, Nat.lor_comm, lor_add _ _ 3 (Nat.mod_lt _ (by decide))]
  omega

/-- The tag word of an enumerator, as a number. -/
theorem tag_eq (t : DstType) :
    dst_nanbox_tag t.toNat = (0x7FF8 + t.toNat % 8 + t.toNat / 8 * 0x8000) * 2 ^ 48 := by
  cases t <;> decide

/-- The low tag of an enumerator, as a number. -/
theorem lowtag_eq (t : DstType) :
    dst_nanbox_lowtag t.toNat = 0x7FF8 + t.toNat % 8 + t.toNat / 8 * 0x8000 := by
  cases t <;> decide

/-- A tag word or-ed with a 48-bit payload is their sum. -/
theorem tag_lor_payload (t : DstType) (p : Nat) (hp : p < 2 ^ 48) :
    dst_nanbox_tag t.toNat ||| p = dst_nanbox_tag t.toNat + p := by
  rw [tag_eq, lor_add _ _ 48 hp]

/-- The arithmetic reading of `dst_type`. -/
theorem dst_type_eq (x : Nat) :
    dst_type x = if isnan x = true then x / 2 ^ 48 % 8 + x / 2 ^ 63 % 2 * 8 else 5 := by
  unfold dst_type
  rw [type_bits_eq]
  rfl

/-- The arithmetic reading of `dst_nanbox_checkauxtype` against an enumerator. -/
theorem checkauxtype_iff (x : Nat) (t : DstType) :
    dst_nanbox_checkauxtype x t.toNat = true
      ↔ x / 2 ^ 48 % 2 ^ 16 = 0x7FF8 + t.toNat % 8 + t.toNat / 8 * 0x8000 := by
  unfold dst_nanbox_checkauxtype
  rw [and_tagbits, tag_eq, beq_iff_eq]
  constructor
  · intro h
    exact Nat.eq_of_mul_eq_mul_right (by decide : 0 < 2 ^ 48) h
  · intro h
    rw [h]

/-- The conversion to `uint32_t` stays below `2 ^ 32`. -/
theorem cast_uint32_t_lt (i : Int) : cast_uint32_t i < 2 ^ 32 := by
  unfold cast_uint32_t
  omega

/-- A payload cell is a NaN bit pattern. -/
theorem isnan_payload (t : DstType) (p : Nat) (hp : p < 2 ^ 48) :
    isnan (dst_nanbox_tag t.toNat ||| p) = true := by
  rw [tag_lor_payload t p hp, tag_eq, isnan_iff]
  have ht := t.toNat_lt
  omega

/-- The type of a payload cell is the type of its tag. -/
theorem dst_type_payload (t : DstType) (p : Nat) (hp : p < 2 ^ 48) :
    dst_type (dst_nanbox_tag t.toNat ||| p) = t.toNat := by
  rw [dst_type_eq, isnan_payload t p hp, if_pos rfl, tag_lor_payload t p hp, tag_eq]
  have ht := t.toNat_lt
  omega

end Nanbox

/-! ## Packed encoding: wrap, type and unwrap -/

open Nanbox in
/-- C1: in the packed encoding, for every `DstType` value `t` and every payload
`p < 2 ^ 48`, the cell `dst_nanbox_tag(t) | p` (which is what
`dst_nanbox_from_payload(t, p)` builds) is a NaN bit pattern and `dst_type` of it
is `t`; `dst_wrap_nil()`, `dst_wrap_true()`, `dst_wrap_false()` and
`dst_wrap_integer(i)` (for every `i`, negative ones included) have the types
`DST_NIL`, `DST_TRUE`, `DST_FALSE` and `DST_INTEGER`; and cells of two different
types never share a bit pattern. -/
theorem nanbox_type_of_payload_cell (t : DstType) (p : Nat) (hp : p < 2 ^ 48) :
    dst_nanbox_from_payload t.toNat p = dst_nanbox_tag t.toNat ||| p
    ∧ isnan (dst_nanbox_tag t.toNat ||| p) = true
    ∧ dst_type (dst_nanbox_from_payload t.toNat p) = t.toNat
    ∧ dst_type dst_wrap_nil = DstType.DST_NIL.toNat
    ∧ dst_type dst_wrap_true = DstType.DST_TRUE.toNat
    ∧ dst_type dst_wrap_false = DstType.DST_FALSE.toNat
    ∧ (∀ i : Int, dst_type (dst_wrap_integer i) = DstType.DST_INTEGER.toNat)
    ∧ (∀ (u : DstType) (q : Nat), q < 2 ^ 48 → u ≠ t →
        dst_nanbox_tag u.toNat ||| q ≠ dst_nanbox_tag t.toNat ||| p) := by
  refine ⟨rfl, isnan_payload t p hp, dst_type_payload t p hp, ?_, ?_, ?_, ?_, ?_⟩
  · exact dst_type_payload .DST_NIL 1 (by decide)
  · exact dst_type_payload .DST_TRUE 1 (by decide)
  · exact dst_type_payload .DST_FALSE 1 (by decide)
  · intro i
    exact dst_type_payload .DST_INTEGER (cast_uint32_t i)
      (Nat.lt_trans (cast_uint32_t_lt i) (by decide))
  · intro u q hq hne heq
    apply hne
    apply DstType.toNat_inj
    rw [← dst_type_payload u q hq, heq, dst_type_payload t p hp]

open Nanbox in
/-- Witness for C1 at the array tag with payload `0xBEEF`, and at the integer
cell of `-1`. -/
theorem nanbox_type_of_payload_cell_witness :
    (0xBEEF : Nat) < 2 ^ 48
    ∧ isnan (dst_nanbox_tag DstType.DST_ARRAY.toNat ||| 0xBEEF) = true
    ∧ dst_type (dst_nanbox_from_payload DstType.DST_ARRAY.toNat 0xBEEF) = 8
    ∧ dst_type (dst_wrap_integer (-1)) = 4 :=
  ⟨by decide,
   (nanbox_type_of_payload_cell .DST_ARRAY 0xBEEF (by decide)).2.1,
   (nanbox_type_of_payload_cell .DST_ARRAY 0xBEEF (by decide)).2.2.1,
   (nanbox_type_of_payload_cell .DST_ARRAY 0xBEEF (by decide)).2.2.2.2.2.2.1 (-1)⟩

open Nanbox in
/-- C2: in the packed encoding, for every 32-bit signed integer `i`,
`dst_unwrap_integer(dst_wrap_integer(i)) == i`, where `dst_wrap_integer(i)` is the
word `dst_nanbox_tag(DST_INTEGER) | (uint32_t)i`. -/
theorem nanbox_integer_roundtrip (i : Int) (hlo : -2 ^ 31 ≤ i) (hhi : i < 2 ^ 31) :
    dst_wrap_integer i = dst_nanbox_tag DstType.DST_INTEGER.toNat ||| cast_uint32_t i
    ∧ dst_unwrap_integer (dst_wrap_integer i) = i := by
  refine ⟨rfl, ?_⟩
  have hu := cast_uint32_t_lt i
  have h32 : (0xFFFFFFFF : Nat) = 2 ^ 32 - 1 := by decide
  unfold dst_unwrap_integer dst_wrap_integer dst_nanbox_from_payload dst_nanbox_from_bits
  rw [tag_lor_payload _ _ (Nat.lt_trans hu (by decide)), tag_eq, h32,
    Nat.and_pow_two_sub_one_eq_mod]
  unfold cast_int32_t
  unfold cast_uint32_t at *
  simp only [DstType.toNat]
  split <;> omega

open Nanbox in
/-- Witness for C2 at `INT32_MIN`. -/
theorem nanbox_integer_roundtrip_witness :
    (-2 ^ 31 : Int) ≤ -2147483648 ∧ (-2147483648 : Int) < 2 ^ 31
    ∧ dst_unwrap_integer (dst_wrap_integer (-2147483648)) = -2147483648 :=
  ⟨by decide, by decide,
   (nanbox_integer_roundtrip (-2147483648) (by decide) (by decide)).2⟩

/-! ## Truthiness -/

namespace Nanbox

/-- The arithmetic reading of `dst_checktype` against a type other than `DST_REAL`. -/
theorem checktype_aux_iff (x : Nat) (t : DstType) (ht : t ≠ DstType.DST_REAL) :
    dst_checktype x t.toNat = true
      ↔ x / 2 ^ 48 % 2 ^ 16 = 0x7FF8 + t.toNat % 8 + t.toNat / 8 * 0x8000 := by
  have hne : t.toNat ≠ DstType.DST_REAL.toNat := fun h => ht (DstType.toNat_inj h)
  unfold dst_checktype
  rw [if_neg hne, checkauxtype_iff]

/-- The arithmetic reading of `dst_checktype` against `DST_REAL`. -/
theorem checktype_real_iff (x : Nat) :
    dst_checktype x DstType.DST_REAL.toNat = true
      ↔ isnan x = false ∨ x / 2 ^ 48 % 2 ^ 16 = 0x7FFD := by
  unfold dst_checktype dst_nanbox_isreal
  rw [if_pos rfl, Bool.or_eq_true, checkauxtype_iff]
  simp [DstType.toNat]

/-- The arithmetic reading of `dst_truthy`: a cell is falsy exactly when its
tag is the tag of `DST_NIL` or of `DST_FALSE`. -/
theorem truthy_false_iff (x : Nat) :
    dst_truthy x = false ↔ x / 2 ^ 48 % 2 ^ 16 = 0x7FF8 ∨ x / 2 ^ 48 % 2 ^ 16 = 0x7FF9 := by
  unfold dst_truthy
  rw [Bool.not_eq_false_eq_eq_true, Bool.or_eq_true,
    checktype_aux_iff x .DST_NIL (by decide), checktype_aux_iff x .DST_FALSE (by decide)]
  simp [DstType.toNat]

/-- The arithmetic reading of "`dst_type` is `DST_NIL` or `DST_FALSE`". -/
theorem type_nil_or_false_iff (x : Nat) (hx : x < 2 ^ 64) :
    (dst_type x = DstType.DST_NIL.toNat ∨ dst_type x = DstType.DST_FALSE.toNat)
      ↔ (x / 2 ^ 52 = 0x7FF ∧ x % 2 ^ 52 ≠ 0 ∧ x / 2 ^ 49 % 4 = 0) := by
  rw [dst_type_eq]
  simp only [DstType.toNat]
  by_cases h : isnan x = true
  · rw [if_pos h]
    rw [isnan_iff] at h
    omega
  · rw [if_neg h]
    rw [isnan_iff] at h
    omega

end Nanbox

open Nanbox in
/-- C3 as stated fails in the packed encoding: the signalling-NaN word
`0x7FF0000000000001` has `dst_type == DST_NIL` and is nevertheless `dst_truthy`. -/
theorem truthiness_law_fails_on_unquiet_nan :
    (0x7FF0000000000001 : Nat) < 2 ^ 64
    ∧ dst_type 0x7FF0000000000001 = DstType.DST_NIL.toNat
    ∧ dst_truthy 0x7FF0000000000001 = true
    ∧ ¬ (∀ x : Nat, x < 2 ^ 64 →
          (dst_truthy x = false
            ↔ (dst_type x = DstType.DST_NIL.toNat ∨ dst_type x = DstType.DST_FALSE.toNat))) := by
  refine ⟨by decide, by decide, by decide, ?_⟩
  intro h
  have h1 := (h 0x7FF0000000000001 (by decide)).2 (Or.inl (by decide))
  exact absurd h1 (by decide)

open Nanbox in
/-- C3, amended: the truthiness law holds for every struct of the tagged-union
encoding and, in the packed encoding, for every 64-bit word except the positive
signalling-NaN words strictly between `0x7FF0000000000000` and
`0x7FF2000000000000`; the words it holds for include every non-NaN double and
every cell `dst_nanbox_tag(t) | p`. On every 64-bit word a falsy cell has type
`DST_NIL` or `DST_FALSE`. -/
theorem truthiness_law_wellformed (x : Nat) (hx : x < 2 ^ 64) :
    ((dst_truthy x = false
        ↔ (dst_type x = DstType.DST_NIL.toNat ∨ dst_type x = DstType.DST_FALSE.toNat))
      ↔ ¬ (0x7FF0000000000000 < x ∧ x < 0x7FF2000000000000))
    ∧ (dst_truthy x = false
        → (dst_type x = DstType.DST_NIL.toNat ∨ dst_type x = DstType.DST_FALSE.toNat))
    ∧ (isnan x = false → ¬ (0x7FF0000000000000 < x ∧ x < 0x7FF2000000000000))
    ∧ (∀ (t : DstType) (p : Nat), p < 2 ^ 48 → x = dst_nanbox_tag t.toNat ||| p →
        ¬ (0x7FF0000000000000 < x ∧ x < 0x7FF2000000000000))
    ∧ (∀ s : Tagged.DstValue,
        Tagged.dst_truthy s = false
          ↔ (Tagged.dst_type s = DstType.DST_NIL ∨ Tagged.dst_type s = DstType.DST_FALSE)) := by
  refine ⟨?_, ?_, ?_, ?_, ?_⟩
  · rw [truthy_false_iff, type_nil_or_false_iff x hx]
    omega
  · rw [truthy_false_iff, type_nil_or_false_iff x hx]
    omega
  · intro h
    have h2 : ¬ (isnan x = true) := by simp [h]
    rw [isnan_iff] at h2
    omega
  · intro t p hp hxe
    rw [tag_lor_payload t p hp, tag_eq] at hxe
    have ht := t.toNat_lt
    omega
  · intro s
    unfold Tagged.dst_truthy Tagged.dst_type
    cases s.type <;> decide

open Nanbox in
/-- Witness for the amended C3 at the cell `dst_wrap_false()`. -/
theorem truthiness_law_wellformed_witness :
    dst_wrap_false < 2 ^ 64
    ∧ ((dst_truthy dst_wrap_false = false
        ↔ (dst_type dst_wrap_false = DstType.DST_NIL.toNat
            ∨ dst_type dst_wrap_false = DstType.DST_FALSE.toNat))
      ↔ ¬ (0x7FF0000000000000 < dst_wrap_false ∧ dst_wrap_false < 0x7FF2000000000000)) :=
  ⟨by decide, (truthiness_law_wellformed dst_wrap_false (by decide)).1⟩

namespace Nanbox

/-- The tag field of a payload cell is the low tag of its type. -/
theorem payload_tag_field (t : DstType) (p : Nat) (hp : p < 2 ^ 48) :
    (dst_nanbox_tag t.toNat ||| p) / 2 ^ 48 % 2 ^ 16
      = 0x7FF8 + t.toNat % 8 + t.toNat / 8 * 0x8000 := by
  rw [tag_lor_payload t p hp, tag_eq]
  have ht := t.toNat_lt
  omega

/-- A word that is not a NaN carries no tag: its tag field has an exponent that is
not all ones, or a clear quiet bit. -/
theorem not_nan_tag_field (x : Nat) (h : isnan x = false) (t : DstType) :
    x / 2 ^ 48 % 2 ^ 16 ≠ 0x7FF8 + t.toNat % 8 + t.toNat / 8 * 0x8000 := by
  have h2 : ¬ (isnan x = true) := by simp [h]
  rw [isnan_iff] at h2
  have ht := t.toNat_lt
  omega

/-- `dst_checktype` on a payload cell accepts exactly the type of its tag. -/
theorem checktype_payload_iff (t u : DstType) (p : Nat) (hp : p < 2 ^ 48) :
    dst_checktype (dst_nanbox_tag t.toNat ||| p) u.toNat = true ↔ u = t := by
  have ht := t.toNat_lt
  have hu := u.toNat_lt
  by_cases hr : u = DstType.DST_REAL
  · subst hr
    rw [checktype_real_iff, isnan_payload t p hp, payload_tag_field t p hp]
    constructor
    · intro h
      apply DstType.toNat_inj
      have h5 : DstType.DST_REAL.toNat = 5 := rfl
      rw [h5]
      rcases h with h | h
      · exact absurd h (by decide)
      · omega
    · intro h
      subst h
      right
      rfl
  · rw [checktype_aux_iff _ u hr, payload_tag_field t p hp]
    constructor
    · intro h
      apply DstType.toNat_inj
      omega
    · intro h
      rw [h]

/-- `dst_checktype` on a word that is not a NaN accepts exactly `DST_REAL`. -/
theorem checktype_not_nan_iff (x : Nat) (h : isnan x = false) (u : DstType) :
    dst_checktype x u.toNat = true ↔ u = DstType.DST_REAL := by
  by_cases hr : u = DstType.DST_REAL
  · subst hr
    rw [checktype_real_iff]
    exact ⟨fun _ => rfl, fun _ => Or.inl h⟩
  · rw [checktype_aux_iff _ u hr]
    exact ⟨fun h2 => absurd h2 (not_nan_tag_field x h u), fun h2 => absurd h2 hr⟩

/-- `dst_truthy` on a payload cell. -/
theorem truthy_payload_iff (t : DstType) (p : Nat) (hp : p < 2 ^ 48) :
    dst_truthy (dst_nanbox_tag t.toNat ||| p) = false
      ↔ (t = DstType.DST_NIL ∨ t = DstType.DST_FALSE) := by
  unfold dst_truthy
  rw [Bool.not_eq_false_eq_eq_true, Bool.or_eq_true, checktype_payload_iff _ _ p hp,
    checktype_payload_iff _ _ p hp]
  constructor
  · rintro (h | h)
    · exact Or.inl h.symm
    · exact Or.inr h.symm
  · rintro (h | h)
    · exact Or.inl h.symm
    · exact Or.inr h.symm

/-- `dst_truthy` on a word that is not a NaN. -/
theorem truthy_not_nan (x : Nat) (h : isnan x = false) : dst_truthy x = true := by
  cases hb : dst_truthy x
  · rw [truthy_false_iff] at hb
    have h0 := not_nan_tag_field x h .DST_NIL
    have h1 := not_nan_tag_field x h .DST_FALSE
    simp only [DstType.toNat] at h0 h1
    omega
  · rfl

end Nanbox

open Nanbox in
/-- C4: in the packed encoding, for every `DstType` `t` and payload `p < 2 ^ 48`,
`dst_truthy` of the cell `dst_nanbox_tag(t) | p` is false exactly when `t` is
`DST_NIL` or `DST_FALSE`; so `dst_wrap_nil()` and `dst_wrap_false()` are falsy,
`dst_wrap_true()` and `dst_wrap_integer(0)` are truthy; and `dst_truthy` is true
for every cell holding a non-NaN double, `0.0` and `-0.0` included. -/
theorem nanbox_truthy_of_variant (t : DstType) (p : Nat) (hp : p < 2 ^ 48) :
    (dst_truthy (dst_nanbox_tag t.toNat ||| p) = false
        ↔ (t = DstType.DST_NIL ∨ t = DstType.DST_FALSE))
    ∧ dst_truthy dst_wrap_nil = false
    ∧ dst_truthy dst_wrap_false = false
    ∧ dst_truthy dst_wrap_true = true
    ∧ dst_truthy (dst_wrap_integer 0) = true
    ∧ (∀ x : Nat, isnan x = false → dst_truthy x = true)
    ∧ isnan 0 = false ∧ dst_truthy 0 = true
    ∧ isnan 0x8000000000000000 = false ∧ dst_truthy 0x8000000000000000 = true :=
  ⟨truthy_payload_iff t p hp, by decide, by decide, by decide, by decide,
   truthy_not_nan, by decide, by decide, by decide, by decide⟩

open Nanbox in
/-- Witness for C4 at the cell of the integer 7. -/
theorem nanbox_truthy_of_variant_witness :
    (7 : Nat) < 2 ^ 48
    ∧ (dst_truthy (dst_nanbox_tag DstType.DST_INTEGER.toNat ||| 7) = false
        ↔ (DstType.DST_INTEGER = DstType.DST_NIL ∨ DstType.DST_INTEGER = DstType.DST_FALSE)) :=
  ⟨by decide, (nanbox_truthy_of_variant .DST_INTEGER 7 (by decide)).1⟩

open Nanbox in
/-- C5: in the packed encoding, for every `DstType` `t`, payload `p < 2 ^ 48` and
`DstType` `u`, `dst_checktype(dst_nanbox_tag(t) | p, u)` holds if and only if
`u == t`; and for every cell `x` holding a non-NaN double, `dst_checktype(x, u)`
holds if and only if `u == DST_REAL`. -/
theorem nanbox_checktype_agrees_with_type (t u : DstType) (p : Nat) (hp : p < 2 ^ 48) :
    (dst_checktype (dst_nanbox_tag t.toNat ||| p) u.toNat = true ↔ u = t)
    ∧ (dst_checktype (dst_nanbox_tag t.toNat ||| p) u.toNat = true
        ↔ dst_type (dst_nanbox_tag t.toNat ||| p) = u.toNat)
    ∧ (∀ x : Nat, isnan x = false →
        (dst_checktype x u.toNat = true ↔ u = DstType.DST_REAL)) := by
  refine ⟨checktype_payload_iff t u p hp, ?_, fun x hx => checktype_not_nan_iff x hx u⟩
  rw [checktype_payload_iff t u p hp, dst_type_payload t p hp]
  exact ⟨fun h => by rw [h], fun h => (DstType.toNat_inj h).symm⟩

open Nanbox in
/-- Witness for C5: the table cell with payload `0x1000` against `DST_TABLE` and
the double `1.0` against `DST_REAL`. -/
theorem nanbox_checktype_agrees_with_type_witness :
    (0x1000 : Nat) < 2 ^ 48
    ∧ (dst_checktype (dst_nanbox_tag DstType.DST_TABLE.toNat ||| 0x1000)
          DstType.DST_TABLE.toNat = true ↔ DstType.DST_TABLE = DstType.DST_TABLE)
    ∧ isnan 0x3FF0000000000000 = false
    ∧ (dst_checktype 0x3FF0000000000000 DstType.DST_TABLE.toNat = true
        ↔ DstType.DST_TABLE = DstType.DST_REAL) :=
  ⟨by decide,
   (nanbox_checktype_agrees_with_type .DST_TABLE .DST_TABLE 0x1000 (by decide)).1,
   by decide,
   (nanbox_checktype_agrees_with_type .DST_TABLE .DST_TABLE 0x1000 (by decide)).2.2
     0x3FF0000000000000 (by decide)⟩

open Nanbox in
/-- C6: in the packed encoding every binary64 bit pattern that is not a NaN
(exponent field not all ones, or mantissa zero) is a Float64 cell as it stands:
the cell holding those 64 bits has `dst_type == DST_REAL` and `dst_unwrap_real`
returns the identical 64 bits, so `-0.0 = 0x8000000000000000` keeps its sign bit;
`+0.0`, `-0.0`, `+infinity` and `-infinity` are such patterns. -/
theorem nanbox_real_roundtrip (x : Nat) (hx : x < 2 ^ 64)
    (h : x / 2 ^ 52 % 2 ^ 11 ≠ 0x7FF ∨ x % 2 ^ 52 = 0) :
    isnan x = false
    ∧ dst_type x = DstType.DST_REAL.toNat
    ∧ dst_checktype x DstType.DST_REAL.toNat = true
    ∧ dst_unwrap_real x = x
    ∧ dst_unwrap_real x / 2 ^ 63 = x / 2 ^ 63
    ∧ dst_unwrap_real x < 2 ^ 64 := by
  have hn : isnan x = false := by
    cases hb : isnan x
    · rfl
    · rw [isnan_iff] at hb
      omega
  refine ⟨hn, ?_, ?_, rfl, rfl, hx⟩
  · rw [dst_type_eq, hn]
    rfl
  · exact (checktype_not_nan_iff x hn .DST_REAL).2 rfl

open Nanbox in
/-- Witness for C6 at `-0.0`, whose sign bit survives, and at the two infinities. -/
theorem nanbox_real_roundtrip_witness :
    (0x8000000000000000 : Nat) < 2 ^ 64
    ∧ ((0x8000000000000000 : Nat) / 2 ^ 52 % 2 ^ 11 ≠ 0x7FF
        ∨ (0x8000000000000000 : Nat) % 2 ^ 52 = 0)
    ∧ dst_type 0x8000000000000000 = DstType.DST_REAL.toNat
    ∧ dst_unwrap_real 0x8000000000000000 = 0x8000000000000000
    ∧ dst_unwrap_real 0x8000000000000000 / 2 ^ 63 = 1
    ∧ dst_type 0x7FF0000000000000 = DstType.DST_REAL.toNat
    ∧ dst_type 0xFFF0000000000000 = DstType.DST_REAL.toNat :=
  ⟨by decide, by decide,
   (nanbox_real_roundtrip 0x8000000000000000 (by decide) (by decide)).2.1,
   (nanbox_real_roundtrip 0x8000000000000000 (by decide) (by decide)).2.2.2.1,
   (nanbox_real_roundtrip 0x8000000000000000 (by decide) (by decide)).2.2.2.2.1,
   (nanbox_real_roundtrip 0x7FF0000000000000 (by decide) (by decide)).2.1,
   (nanbox_real_roundtrip 0xFFF0000000000000 (by decide) (by decide)).2.1⟩

open Nanbox in
/-- C7: NaN canonicalization in the packed encoding: for every NaN bit pattern
`d` (any sign, any non-zero mantissa), the cell `c = dst_wrap_real(d)` has
`dst_type(c) == DST_REAL`, passes `dst_checktype(c, DST_REAL)`, and
`dst_unwrap_real(c)` is a NaN; the cell is the same whichever NaN was supplied. -/
theorem nanbox_nan_canonicalization (d : Nat) (hd : isnan d = true) :
    dst_type (dst_wrap_real d) = DstType.DST_REAL.toNat
    ∧ dst_checktype (dst_wrap_real d) DstType.DST_REAL.toNat = true
    ∧ isnan (dst_unwrap_real (dst_wrap_real d)) = true
    ∧ (∀ e : Nat, isnan e = true → dst_wrap_real e = dst_wrap_real d) := by
  have hw : ∀ e : Nat, isnan e = true →
      dst_wrap_real e = dst_nanbox_tag DstType.DST_REAL.toNat := by
    intro e he
    unfold dst_wrap_real dst_nanbox_from_double
    rw [if_pos he]
  rw [hw d hd]
  refine ⟨by decide, by decide, by decide, fun e he => hw e he⟩

open Nanbox in
/-- Witness for C7 at the negative signalling NaN `0xFFF0000000000001`. -/
theorem nanbox_nan_canonicalization_witness :
    isnan 0xFFF0000000000001 = true
    ∧ dst_type (dst_wrap_real 0xFFF0000000000001) = DstType.DST_REAL.toNat
    ∧ dst_checktype (dst_wrap_real 0xFFF0000000000001) DstType.DST_REAL.toNat = true
    ∧ isnan (dst_unwrap_real (dst_wrap_real 0xFFF0000000000001)) = true :=
  ⟨by decide,
   (nanbox_nan_canonicalization 0xFFF0000000000001 (by decide)).1,
   (nanbox_nan_canonicalization 0xFFF0000000000001 (by decide)).2.1,
   (nanbox_nan_canonicalization 0xFFF0000000000001 (by decide)).2.2.1⟩

open Nanbox in
/-- C8: in the packed encoding, for every C `int` `b`,
`dst_unwrap_boolean(dst_wrap_boolean(b))` is true if and only if `b != 0`;
`dst_wrap_boolean(b)` is the cell `dst_wrap_true()` when `b != 0` and
`dst_wrap_false()` when `b == 0`; `dst_unwrap_boolean(dst_wrap_true())` is true and
`dst_unwrap_boolean(dst_wrap_false())` is false. -/
theorem nanbox_boolean_roundtrip (b : Int) :
    (dst_unwrap_boolean (dst_wrap_boolean b) = true ↔ b ≠ 0)
    ∧ dst_wrap_boolean b = (if b ≠ 0 then dst_wrap_true else dst_wrap_false)
    ∧ dst_unwrap_boolean dst_wrap_true = true
    ∧ dst_unwrap_boolean dst_wrap_false = false := by
  have ht : dst_unwrap_boolean dst_wrap_true = true := by decide
  have hf : dst_unwrap_boolean dst_wrap_false = false := by decide
  have hw : dst_wrap_boolean b = (if b ≠ 0 then dst_wrap_true else dst_wrap_false) := by
    unfold dst_wrap_boolean dst_wrap_true dst_wrap_false
    split <;> rfl
  refine ⟨?_, hw, ht, hf⟩
  rw [hw]
  by_cases hb : b ≠ 0
  · rw [if_pos hb, ht]
    exact ⟨fun _ => hb, fun _ => rfl⟩
  · rw [if_neg hb, hf]
    exact ⟨fun h => absurd h (by decide), fun h => absurd h hb⟩

/-! ## The two encodings agree -/

open Nanbox in
/-- C9: the two representations are observationally identical: for every
`DstType` `t` other than `DST_REAL` and payload `p < 2 ^ 48` (packed word
`dst_nanbox_tag(t) | p` against the struct `{as.u64 = p, type = t}`), and for
every non-NaN double `d` (packed word `d` against `{as.real = d, type = DST_REAL}`),
the packed macros and the tagged-union macros give the same `dst_type`, the same
`dst_checktype` against every `DstType`, the same `dst_truthy`, the same
`dst_unwrap_boolean` and the same `dst_unwrap_integer`. -/
theorem encodings_observationally_equal (t : DstType) (p : Nat) (hp : p < 2 ^ 48)
    (ht : t ≠ DstType.DST_REAL) :
    (dst_type (dst_nanbox_tag t.toNat ||| p) = (Tagged.dst_type ⟨p, t⟩).toNat
      ∧ (∀ u : DstType, dst_checktype (dst_nanbox_tag t.toNat ||| p) u.toNat
            = Tagged.dst_checktype ⟨p, t⟩ u)
      ∧ dst_truthy (dst_nanbox_tag t.toNat ||| p) = Tagged.dst_truthy ⟨p, t⟩
      ∧ dst_unwrap_boolean (dst_nanbox_tag t.toNat ||| p) = Tagged.dst_unwrap_boolean ⟨p, t⟩
      ∧ dst_unwrap_integer (dst_nanbox_tag t.toNat ||| p) = Tagged.dst_unwrap_integer ⟨p, t⟩)
    ∧ (∀ d : Nat, isnan d = false →
        dst_type d = (Tagged.dst_type ⟨d, .DST_REAL⟩).toNat
        ∧ (∀ u : DstType, dst_checktype d u.toNat = Tagged.dst_checktype ⟨d, .DST_REAL⟩ u)
        ∧ dst_truthy d = Tagged.dst_truthy ⟨d, .DST_REAL⟩
        ∧ dst_unwrap_boolean d = Tagged.dst_unwrap_boolean ⟨d, .DST_REAL⟩
        ∧ dst_unwrap_integer d = Tagged.dst_unwrap_integer ⟨d, .DST_REAL⟩
        ∧ dst_unwrap_real d = Tagged.dst_unwrap_real ⟨d, .DST_REAL⟩) := by
  have h32 : (0xFFFFFFFF : Nat) = 2 ^ 32 - 1 := by decide
  have hlt := t.toNat_lt
  refine ⟨⟨dst_type_payload t p hp, ?_, ?_, ?_, ?_⟩, ?_⟩
  · intro u
    rw [Bool.eq_iff_iff, checktype_payload_iff t u p hp]
    unfold Tagged.dst_checktype
    rw [beq_iff_eq]
    exact ⟨fun h => h.symm, fun h => h.symm⟩
  · rw [Bool.eq_iff_iff]
    unfold Tagged.dst_truthy
    dsimp only
    rw [← Bool.not_eq_false, truthy_payload_iff t p hp]
    cases t <;> decide
  · rw [Bool.eq_iff_iff]
    unfold dst_unwrap_boolean Tagged.dst_unwrap_boolean
    dsimp only
    rw [beq_iff_eq, beq_iff_eq, Nat.shiftRight_eq_div_pow, tag_lor_payload t p hp, tag_eq,
      lowtag_eq]
    constructor
    · intro h
      apply DstType.toNat_inj
      have h2 : DstType.DST_TRUE.toNat = 2 := rfl
      rw [h2] at h ⊢
      omega
    · intro h
      have h2 : t.toNat = 2 := by rw [h]; rfl
      rw [h2]
      have h3 : DstType.DST_TRUE.toNat = 2 := rfl
      rw [h3]
      omega
  · unfold dst_unwrap_integer Tagged.dst_unwrap_integer Tagged.DstValue.as_integer
    dsimp only
    rw [h32, Nat.and_pow_two_sub_one_eq_mod, tag_lor_payload t p hp, tag_eq]
    congr 1
    omega
  · intro d hd
    refine ⟨?_, ?_, ?_, ?_, ?_, rfl⟩
    · rw [dst_type_eq, hd]
      rfl
    · intro u
      rw [Bool.eq_iff_iff, checktype_not_nan_iff d hd u]
      unfold Tagged.dst_checktype
      rw [beq_iff_eq]
      exact ⟨fun h => h.symm, fun h => h.symm⟩
    · rw [truthy_not_nan d hd]
      rfl
    · have hf : Tagged.dst_unwrap_boolean ⟨d, .DST_REAL⟩ = false := rfl
      rw [hf]
      cases hb : dst_unwrap_boolean d
      · rfl
      · unfold dst_unwrap_boolean at hb
        rw [beq_iff_eq, Nat.shiftRight_eq_div_pow, lowtag_eq] at hb
        have h2 : DstType.DST_TRUE.toNat = 2 := rfl
        rw [h2] at hb
        have hn : ¬ (isnan d = true) := by simp [hd]
        rw [isnan_iff] at hn
        omega
    · unfold dst_unwrap_integer Tagged.dst_unwrap_integer Tagged.DstValue.as_integer
      rw [h32, Nat.and_pow_two_sub_one_eq_mod]

open Nanbox in
/-- Witness for C9 at the integer cell of `-1` (payload `0xFFFFFFFF`). -/
theorem encodings_observationally_equal_witness :
    (0xFFFFFFFF : Nat) < 2 ^ 48 ∧ DstType.DST_INTEGER ≠ DstType.DST_REAL
    ∧ dst_type (dst_nanbox_tag DstType.DST_INTEGER.toNat ||| 0xFFFFFFFF)
        = (Tagged.dst_type ⟨0xFFFFFFFF, .DST_INTEGER⟩).toNat
    ∧ dst_unwrap_integer (dst_nanbox_tag DstType.DST_INTEGER.toNat ||| 0xFFFFFFFF)
        = Tagged.dst_unwrap_integer ⟨0xFFFFFFFF, .DST_INTEGER⟩ :=
  ⟨by decide, by decide,
   (encodings_observationally_equal .DST_INTEGER 0xFFFFFFFF (by decide) (by decide)).1.1,
   (encodings_observationally_equal .DST_INTEGER 0xFFFFFFFF (by decide)
      (by decide)).1.2.2.2.2⟩

/-! ## Frame size -/

/-- C10: `DST_FRAME_SIZE` is the ceiling of `sizeof(DstStackFrame) / sizeof(DstValue)`:
for positive sizes `s` and `v` with `s + v - 1` not overflowing `size_t`, the value
`(s + v - 1) / v` is the least `n` with `n * v >= s`; a header of `s` bytes fits in
`DST_FRAME_SIZE` cells and does not fit in `DST_FRAME_SIZE - 1` cells. -/
theorem frame_size_is_ceiling (s v : Nat) (hs : 0 < s) (hv : 0 < v)
    (hno : s + v - 1 < 2 ^ 64) :
    DST_FRAME_SIZE s v = (s + v - 1) / v
    ∧ s ≤ DST_FRAME_SIZE s v * v
    ∧ (∀ n : Nat, s ≤ n * v → DST_FRAME_SIZE s v ≤ n)
    ∧ (DST_FRAME_SIZE s v - 1) * v < s := by
  have hF : DST_FRAME_SIZE s v = (s + v - 1) / v := by
    unfold DST_FRAME_SIZE
    rw [Nat.mod_eq_of_lt hno]
  have hdm := Nat.div_add_mod (s + v - 1) v
  have hr := Nat.mod_lt (s + v - 1) hv
  rw [hF]
  generalize (s + v - 1) / v = q at hdm
  generalize (s + v - 1) % v = r at hdm hr
  rw [Nat.mul_comm] at hdm
  refine ⟨rfl, by omega, ?_, ?_⟩
  · intro n hn
    by_contra hlt
    have h1 : (n + 1) * v ≤ q * v := Nat.mul_le_mul_right v (by omega)
    rw [Nat.add_mul] at h1
    omega
  · rw [Nat.sub_mul]
    omega

/-- Witness for C10: a 24-byte frame header over 8-byte cells takes 3 cells. -/
theorem frame_size_is_ceiling_witness :
    0 < 24 ∧ 0 < 8 ∧ 24 + 8 - 1 < 2 ^ 64
    ∧ DST_FRAME_SIZE 24 8 = (24 + 8 - 1) / 8
    ∧ 24 ≤ DST_FRAME_SIZE 24 8 * 8
    ∧ (DST_FRAME_SIZE 24 8 - 1) * 8 < 24 :=
  ⟨by decide, by decide, by decide,
   (frame_size_is_ceiling 24 8 (by decide) (by decide) (by decide)).1,
   (frame_size_is_ceiling 24 8 (by decide) (by decide) (by decide)).2.1,
   (frame_size_is_ceiling 24 8 (by decide) (by decide) (by decide)).2.2.2⟩

/-! ## Payload of the simple cells, tag layout and soundness of `dst_checktype` -/

namespace Nanbox

/-- A word whose 16-bit tag field is the low tag of a type is a NaN bit pattern and
`dst_type` reads that type back. -/
theorem tag_field_type (x : Nat) (t : DstType)
    (h : x / 2 ^ 48 % 2 ^ 16 = 0x7FF8 + t.toNat % 8 + t.toNat / 8 * 0x8000) :
    isnan x = true ∧ dst_type x = t.toNat := by
  have ht := t.toNat_lt
  have hn : isnan x = true := by
    rw [isnan_iff]
    omega
  refine ⟨hn, ?_⟩
  rw [dst_type_eq, if_pos hn]
  omega

/-- `dst_checktype` implies `dst_type`, on every word. -/
theorem checktype_imp_type (x : Nat) (t : DstType)
    (h : dst_checktype x t.toNat = true) : dst_type x = t.toNat := by
  by_cases hr : t = DstType.DST_REAL
  · subst hr
    rw [checktype_real_iff] at h
    rcases h with h | h
    · rw [dst_type_eq, h]
      rfl
    · exact (tag_field_type x .DST_REAL h).2
  · rw [checktype_aux_iff x t hr] at h
    exact (tag_field_type x t h).2

/-- Two types have the same tag word only when they are the same type. -/
theorem tag_inj_iff (t u : DstType) :
    dst_nanbox_tag u.toNat = dst_nanbox_tag t.toNat ↔ u = t := by
  constructor
  · intro h
    rw [tag_eq, tag_eq] at h
    have ht := t.toNat_lt
    have hu := u.toNat_lt
    apply DstType.toNat_inj
    omega
  · intro h
    rw [h]

end Nanbox

open Nanbox in
/-- C11: the claim is that the cells built by `dst_wrap_nil()`, `dst_wrap_true()`,
`dst_wrap_false()` and `dst_wrap_boolean(b)` have all 48 payload bits equal to 1,
as the header comment on the tag layout requires. The macros do not do that: each
of them passes the payload `1`, so the payload field of the word is
`0x000000000001` and not `DST_NANBOX_PAYLOADBITS`; bit 1 of the word is already
clear. -/
theorem nanbox_simple_cells_payload_is_one :
    dst_wrap_nil = 0x7FF8000000000001
    ∧ dst_wrap_true = 0x7FFA000000000001
    ∧ dst_wrap_false = 0x7FF9000000000001
    ∧ dst_wrap_nil &&& DST_NANBOX_PAYLOADBITS = 1
    ∧ dst_wrap_true &&& DST_NANBOX_PAYLOADBITS = 1
    ∧ dst_wrap_false &&& DST_NANBOX_PAYLOADBITS = 1
    ∧ (∀ b : Int, dst_wrap_boolean b &&& DST_NANBOX_PAYLOADBITS = 1)
    ∧ dst_wrap_boolean 1 &&& DST_NANBOX_PAYLOADBITS ≠ DST_NANBOX_PAYLOADBITS
    ∧ dst_wrap_nil &&& DST_NANBOX_PAYLOADBITS ≠ DST_NANBOX_PAYLOADBITS
    ∧ dst_wrap_true &&& DST_NANBOX_PAYLOADBITS ≠ DST_NANBOX_PAYLOADBITS
    ∧ dst_wrap_false &&& DST_NANBOX_PAYLOADBITS ≠ DST_NANBOX_PAYLOADBITS
    ∧ dst_wrap_nil.testBit 1 = false := by
  refine ⟨by decide, by decide, by decide, by decide, by decide, by decide, ?_,
    by decide, by decide, by decide, by decide, by decide⟩
  intro b
  unfold dst_wrap_boolean
  split <;> decide

open Nanbox in
/-- C12: tag layout `t|11111111111|1ttt|payload`: for every `DstType` `t`,
`dst_nanbox_lowtag(t)` is the 16-bit value whose bit 15 is bit 3 of `t`, whose bits
14..4 are all ones, whose bit 3 is one and whose bits 2..0 are the low three bits of
`t` (`0x7FF8 + t` for `t < 8`, `0xFFF0 + t` for `t >= 8`); `dst_nanbox_tag(t)` is
that value in bits 63..48 with the 48 payload bits zero, so
`dst_nanbox_tag(t) & DST_NANBOX_TAGBITS == dst_nanbox_tag(t)`; and `dst_nanbox_tag`
is injective on the 16 types. -/
theorem nanbox_tag_layout (t : DstType) :
    dst_nanbox_lowtag t.toNat < 2 ^ 16
    ∧ (dst_nanbox_lowtag t.toNat).testBit 15 = t.toNat.testBit 3
    ∧ (∀ i : Fin 11, (dst_nanbox_lowtag t.toNat).testBit (i.val + 4) = true)
    ∧ (dst_nanbox_lowtag t.toNat).testBit 3 = true
    ∧ (∀ i : Fin 3, (dst_nanbox_lowtag t.toNat).testBit i.val = t.toNat.testBit i.val)
    ∧ dst_nanbox_lowtag t.toNat = (if t.toNat < 8 then 0x7FF8 + t.toNat else 0xFFF0 + t.toNat)
    ∧ dst_nanbox_tag t.toNat = dst_nanbox_lowtag t.toNat * 2 ^ 48
    ∧ dst_nanbox_tag t.toNat < 2 ^ 64
    ∧ dst_nanbox_tag t.toNat >>> 48 = dst_nanbox_lowtag t.toNat
    ∧ dst_nanbox_tag t.toNat &&& DST_NANBOX_PAYLOADBITS = 0
    ∧ dst_nanbox_tag t.toNat &&& DST_NANBOX_TAGBITS = dst_nanbox_tag t.toNat
    ∧ (∀ u : DstType, dst_nanbox_tag u.toNat = dst_nanbox_tag t.toNat ↔ u = t) := by
  refine ⟨?_, ?_, ?_, ?_, ?_, ?_, ?_, ?_, ?_, ?_, ?_, fun u => tag_inj_iff t u⟩ <;>
    cases t <;> decide

open Nanbox in
/-- C13: in the packed encoding `dst_checktype` is sound with respect to `dst_type`
on every 64-bit word, well-formed or not: if `dst_checktype(x, t)` holds then
`dst_type(x) == t`; hence at most one type passes `dst_checktype` on a word. No
bound on `x` is needed, so the statement covers every 64-bit word. -/
theorem nanbox_checktype_sound (x : Nat) (t : DstType)
    (h : dst_checktype x t.toNat = true) :
    dst_type x = t.toNat
    ∧ (∀ u : DstType, dst_checktype x u.toNat = true → u = t) := by
  have ht := checktype_imp_type x t h
  refine ⟨ht, ?_⟩
  intro u hu
  apply DstType.toNat_inj
  rw [← checktype_imp_type x u hu, ht]

open Nanbox in
/-- Witness for C13 at the ill-formed word `0xFFFF123456789ABC`, which passes
`dst_checktype` against `DST_USERDATA`, and at the double `1.0`. -/
theorem nanbox_checktype_sound_witness :
    dst_checktype 0xFFFF123456789ABC DstType.DST_USERDATA.toNat = true
    ∧ dst_type 0xFFFF123456789ABC = DstType.DST_USERDATA.toNat
    ∧ dst_type 0x3FF0000000000000 = DstType.DST_REAL.toNat :=
  ⟨by decide,
   (nanbox_checktype_sound 0xFFFF123456789ABC .DST_USERDATA (by decide)).1,
   (nanbox_checktype_sound 0x3FF0000000000000 .DST_REAL (by decide)).1⟩

open Nanbox in
/-- C14: quiet NaN is nil, with sign bit 0: `dst_nanbox_tag(DST_NIL)` is exactly the
positive quiet-NaN bit pattern `0x7FF8000000000000`, and the cell holding that
pattern has `dst_type == DST_NIL`, passes `dst_checktype(., DST_NIL)`, fails
`dst_checktype(., DST_REAL)` and is not `dst_truthy`. -/
theorem nanbox_quiet_nan_is_nil :
    dst_nanbox_tag DstType.DST_NIL.toNat = 0x7FF8000000000000
    ∧ (dst_nanbox_tag DstType.DST_NIL.toNat).testBit 63 = false
    ∧ isnan (dst_nanbox_tag DstType.DST_NIL.toNat) = true
    ∧ dst_type 0x7FF8000000000000 = DstType.DST_NIL.toNat
    ∧ dst_checktype 0x7FF8000000000000 DstType.DST_NIL.toNat = true
    ∧ dst_checktype 0x7FF8000000000000 DstType.DST_REAL.toNat = false
    ∧ dst_truthy 0x7FF8000000000000 = false := by
  refine ⟨?_, ?_, ?_, ?_, ?_, ?_, ?_⟩ <;> decide

end Dst
